import Mathlib

/-!
Verification development for the MethaneAnalyzer repository: a shallow embedding
of its data ingestion, aggregation, cache, and orchestration pipeline
(src/data/loader.py, src/data/database_manager.py, src/processing/resampler.py,
src/app.py), followed by theorems settling the specification claims.

Modelling conventions:
* pandas DataFrames of numeric data are `Table`s: a column-name list plus rows of
  (timestamp, cell list); a cell is `Option ℚ` and `none` models NaN.
* Standard-deviation tables hold `Option ℝ` cells, since a sample standard
  deviation is the real square root of the rational sample variance.
* Timestamps are seconds since the epoch as `ℤ`; pandas resampling onto a window
  of w seconds buckets a timestamp t into the left-closed epoch-aligned bucket
  with index `Int.ediv t w` (floor division for positive w).
* The SQLite store is a `DBState`: a row list for the processed-data tables
  (both data sources in one list, tagged by data_type, which models the choice
  of table) and a file-record list.
-/

namespace MethaneAnalyzer

/-- A table cell: `none` models a pandas missing value (NaN / SQL NULL). -/
abbrev Cell := Option ℚ

/-- A cell of a standard-deviation table (real-valued, since std = √variance). -/
abbrev RCell := Option ℝ

/-- Drop the missing values of a cell list (pandas `dropna`). -/
def dropna (xs : List Cell) : List ℚ :=
  xs.filterMap id

/-- Sum of a rational list. -/
def qsum (xs : List ℚ) : ℚ :=
  xs.foldr (· + ·) 0

/-- Arithmetic mean of a rational list (pandas `Series.mean` over non-missing
values; only used on nonempty lists, guarded exactly as in the source). -/
def qmean (xs : List ℚ) : ℚ :=
  qsum xs / xs.length

/-- Median of a rational list as pandas computes it: middle element of the
sorted list for odd length, average of the two middle elements for even. -/
def qmedian (xs : List ℚ) : ℚ :=
  let s := xs.insertionSort (· ≤ ·)
  let n := s.length
  if n % 2 = 1 then s.getD (n / 2) 0
  else (s.getD (n / 2 - 1) 0 + s.getD (n / 2) 0) / 2

/-- Sample variance with ddof = 1 (the pandas `Series.std` default, squared);
only used on lists of length ≥ 2, guarded exactly as in the source. -/
def sampleVar (xs : List ℚ) : ℚ :=
  qsum (xs.map (fun x => (x - qmean xs) ^ 2)) / ((xs.length : ℚ) - 1)

/-- Central tendency selected by agg_method: the source's if/elif/else chain
uses the median only when agg_method equals the string median, and the mean in
every other case (including the fall-through else branch). -/
def centralOf (method : String) (xs : List ℚ) : ℚ :=
  if method = ("median") then qmedian xs else qmean xs

/-- Per-bucket central cell, the lambda applied to every resample bucket in
loader.py and resampler.py: the mean (or median) when the bucket has at least
one non-missing sample, NaN otherwise. -/
def centralCell (method : String) (xs : List Cell) : Cell :=
  if (dropna xs).length ≠ 0 then some (centralOf method (dropna xs)) else none

/-- Per-bucket sample-variance cell: the square of the dispersion the source
stores. `x.std()` (ddof = 1) is NaN for fewer than 2 non-missing samples (the
source's own guard only handles the all-missing case; a single-sample bucket
yields NaN from `x.std()` itself), hence the `2 ≤` guard. -/
def varCell (xs : List Cell) : Cell :=
  if 2 ≤ (dropna xs).length then some (sampleVar (dropna xs)) else none

/-- Per-bucket dispersion cell, exactly the value `x.std()` produces: the real
square root of the sample variance, missing for fewer than 2 non-missing
samples. -/
noncomputable def stdCell (xs : List Cell) : RCell :=
  (varCell xs).map (fun q => Real.sqrt (q : ℝ))

/-- A numeric pandas DataFrame with a designated timestamp axis: column names
plus rows of (timestamp seconds, one cell per column). -/
structure Table where
  cols : List String
  rows : List (ℤ × List Cell)
deriving DecidableEq

/-- A standard-deviation DataFrame: same shape, real-valued cells. -/
structure RTable where
  cols : List String
  rows : List (ℤ × List RCell)

/-- An empty DataFrame (`pd.DataFrame()`). -/
def emptyTable : Table :=
  ⟨[], []⟩

/-- An empty standard-deviation DataFrame. -/
def emptyRTable : RTable :=
  ⟨[], []⟩

/-- Epoch-aligned bucket index of timestamp t for window width w (pandas
`resample` with left-closed, epoch-aligned fixed windows). -/
def bucketIdx (w t : ℤ) : ℤ :=
  Int.ediv t w

/-- Cell of a row at a named column (missing when the column is absent). -/
def tableCell (cols : List String) (row : List Cell) (name : String) : Cell :=
  match List.findIdx? (fun c => c = name) cols with
  | some j => row.getD j none
  | none => none

/-- Cells of column j falling into bucket b. -/
def bucketColCells (w : ℤ) (rows : List (ℤ × List Cell)) (b : ℤ) (j : ℕ) : List Cell :=
  (rows.filter (fun r => bucketIdx w r.1 = b)).map (fun r => r.2.getD j none)

/-- Bucket indices emitted by pandas `resample`: every index from the smallest
occupied bucket to the largest, empty intermediate buckets included. -/
def bucketList (w : ℤ) (rows : List (ℤ × List Cell)) : List ℤ :=
  match rows with
  | [] => []
  | r :: rs =>
    let ts := (r :: rs).map (fun p => bucketIdx w p.1)
    let bmin := ts.foldr min (bucketIdx w r.1)
    let bmax := ts.foldr max (bucketIdx w r.1)
    (List.range ((bmax - bmin).toNat + 1)).map (fun i => bmin + (i : ℤ))

/-- Central-tendency table of resampling tb onto width-w buckets: one row per
emitted bucket, keyed by the bucket start timestamp w·b. -/
def aggCentral (w : ℤ) (method : String) (tb : Table) : Table :=
  ⟨tb.cols,
    (bucketList w tb.rows).map (fun b =>
      (w * b, (List.range tb.cols.length).map (fun j =>
        centralCell method (bucketColCells w tb.rows b j))))⟩

/-- Sample-variance companion of aggCentral (the squared dispersion table). -/
def aggVar (w : ℤ) (tb : Table) : Table :=
  ⟨tb.cols,
    (bucketList w tb.rows).map (fun b =>
      (w * b, (List.range tb.cols.length).map (fun j =>
        varCell (bucketColCells w tb.rows b j))))⟩

/-- Dispersion (standard-deviation) table of resampling tb: the variance table
mapped through the real square root, which is exactly what the per-bucket
`x.std()` lambda computes. -/
noncomputable def aggStd (w : ℤ) (tb : Table) : RTable :=
  ⟨tb.cols,
    (aggVar w tb).rows.map (fun r =>
      (r.1, r.2.map (fun c => c.map (fun q => Real.sqrt (q : ℝ)))))⟩

/-- Window-size codes offered by config/settings.py (TIME_WINDOW_OPTIONS),
translated to seconds; the source's replace of the old T alias by min does not
change any of these codes. Only these codes reach the resamplers. -/
def windowSeconds (tw : String) : ℤ :=
  if tw = ("30S") then 30
  else if tw = ("1min") then 60
  else if tw = ("5min") then 300
  else if tw = ("10min") then 600
  else if tw = ("30min") then 1800
  else if tw = ("1H") then 3600
  else 0

/-- Channel columns zero-checked by DataResampler.filter_zero_values for each
data source (src/processing/resampler.py lines 14-35). -/
def filterZeroCols (data_source : String) : List String :=
  if data_source = ("picarro") then [("CO2_dry"), ("CH4_dry"), ("H2O")]
  else [("CH4"), ("C2H6"), ("H2O")]

/-- DataResampler.filter_zero_values: keep a row only when every checked column
that is present in the table holds a value different from 0. A missing value
(NaN) passes the check, because in pandas NaN != 0 is True. An empty table is
returned unchanged. -/
def filter_zero_values (df : Table) (data_source : String) : Table :=
  if df.rows = [] then df
  else
    ⟨df.cols, df.rows.filter (fun r =>
      decide (∀ c ∈ filterZeroCols data_source,
        c ∈ df.cols → tableCell df.cols r.2 c ≠ some 0))⟩

/-- DataResampler.resample_data_with_uncertainty (resampler.py lines 37-82):
given a window code (None = no aggregation) it returns the central-tendency
table and the standard-deviation table. An empty input, or a null window,
returns the input unchanged paired with an empty dispersion table; the model's
tables always carry their timestamp axis, so the time_col-absent guard of the
source cannot fire. With a window, only numeric columns are aggregated — in the
model every Table column is numeric, and the guard for no numeric columns
remains. -/
noncomputable def resample_data_with_uncertainty (df : Table) (time_window : Option String)
    (agg_method : String) : Table × RTable :=
  if df.rows = [] then (df, emptyRTable)
  else
    match time_window with
    | none => (df, emptyRTable)
    | some tw =>
      if df.cols = [] then (df, emptyRTable)
      else (aggCentral (windowSeconds tw) agg_method df, aggStd (windowSeconds tw) df)

/-- Shift the timestamp axis by a fixed offset: models converting the UTC
DATETIME column to the display timezone (the source then resamples and sorts on
the shifted DATETIME_DISPLAY axis). Fixed-offset zones only. -/
def shiftTime (off : ℤ) (df : Table) : Table :=
  ⟨df.cols, df.rows.map (fun r => (r.1 + off, r.2))⟩

/-- Sort a table's rows by timestamp ascending (`sort_values` on the time
column; stable, like the source's sort). -/
def sortByTime (df : Table) : Table :=
  ⟨df.cols, df.rows.insertionSort (fun a b => a.1 ≤ b.1)⟩

/-- DataResampler.process_data (resampler.py lines 84-120): convert the time
axis to the display timezone, apply zero filtering when requested, return
empties when nothing is left, otherwise resample with uncertainty and sort the
central table by display time. -/
noncomputable def process_data (df : Table) (time_window : Option String) (agg_method : String)
    (display_off : ℤ) (fz : Bool) (data_source : String) : Table × RTable :=
  let dfd := shiftTime display_off df
  let dff := if fz then filter_zero_values dfd data_source else dfd
  if dff.rows = [] then (dff, emptyRTable)
  else
    let pr := resample_data_with_uncertainty dff time_window agg_method
    (sortByTime pr.1, pr.2)

/-- Channel columns of the processed-data table for each data source, in schema
order (database_manager.py init_database): picarro stores CO2_dry, CH4_dry,
H2O, CO2, CH4 and pico stores CH4, C2H6, H2O, Tgas, each with a matching _std
column. -/
def channelNames (data_type : String) : List String :=
  if data_type = ("picarro") then [("CO2_dry"), ("CH4_dry"), ("H2O"), ("CO2"), ("CH4")]
  else [("CH4"), ("C2H6"), ("H2O"), ("Tgas")]

/-- One row of a {data_type}_processed_data table: bucket timestamp, central
value and standard deviation per channel (aligned with channelNames), the
(time_window, agg_method) key, the provenance file name and the table tag.
The autoincrement id and created_at audit column carry no information the
claims touch and are not modelled. -/
structure AggRow where
  datetime : ℤ
  vals : List Cell
  stds : List RCell
  time_window : String
  agg_method : String
  source_file_name : String
  data_type : String

/-- One row of the file_records table (database_manager.py init_database);
created_at/updated_at audit columns are not modelled. -/
structure FileRecord where
  file_name : String
  original_path : String
  file_hash : String
  last_modified : ℤ
  data_type : String
  record_count : ℕ

/-- The durable SQLite state: the processed-data rows (both per-source tables
in one list, distinguished by data_type) and the file records. -/
structure DBState where
  processed : List AggRow
  file_records : List FileRecord

/-- A source file on disk, with its MD5 digest modelled as an abstract string
(DatabaseManager.calculate_file_hash) and its modification time. -/
structure SrcFile where
  path : String
  file_hash : String
  mtime : ℤ

/-- DatabaseManager.get_existing_file_records: the stored (hash, modified)
pair for a file name, as the dict lookup the sync loop performs. -/
def get_existing_file_records (st : DBState) (name : String) : Option (String × ℤ) :=
  (st.file_records.find? (fun r => r.file_name = name)).map (fun r => (r.file_hash, r.last_modified))

/-- DatabaseManager.delete_processed_data_by_file_name (database_manager.py
lines 110-120): delete exactly the rows of the data_type table carrying this
source_file_name, time_window and agg_method. Defined by the repository but
never invoked by DataLoader.sync_database. -/
def delete_processed_data_by_file_name (st : DBState) (file_name data_type time_window agg_method : String) :
    DBState :=
  ⟨st.processed.filter (fun r =>
      decide (¬ (r.data_type = data_type ∧ r.source_file_name = file_name ∧
        r.time_window = time_window ∧ r.agg_method = agg_method))),
    st.file_records⟩

/-- DatabaseManager.update_file_record (database_manager.py lines 122-135):
INSERT OR REPLACE on the file_name primary key (the source re-reads the mtime
of original_path; the model takes it as a parameter). -/
def update_file_record (st : DBState) (file_name original_path file_hash : String)
    (mtime : ℤ) (data_type : String) (record_count : ℕ) : DBState :=
  ⟨st.processed,
    ⟨file_name, original_path, file_hash, mtime, data_type, record_count⟩ ::
      st.file_records.filter (fun r => r.file_name ≠ file_name)⟩

/-- Rows appended by DatabaseManager.insert_processed_data_to_db: df_complete
is df plus one _std column per df column present in df_std (positionally
aligned, as the pandas index assignment aligns the two reset ranges); the
required schema channels missing from df_complete are stored as NULL. -/
def mkAggRows (df : Table) (df_std : RTable) (data_type time_window agg_method source_file_name : String) :
    List AggRow :=
  if df_std.rows.isEmpty then
    df.rows.map (fun r =>
      ⟨r.1, (channelNames data_type).map (fun c => tableCell df.cols r.2 c),
        (channelNames data_type).map (fun _ => none),
        time_window, agg_method, source_file_name, data_type⟩)
  else
    (df.rows.zip df_std.rows).map (fun p =>
      ⟨p.1.1, (channelNames data_type).map (fun c => tableCell df.cols p.1.2 c),
        (channelNames data_type).map (fun c =>
          match List.findIdx? (fun d => d = c) df.cols with
          | some _ =>
            match List.findIdx? (fun d => d = c) df_std.cols with
            | some j => p.2.2.getD j none
            | none => none
          | none => none),
        time_window, agg_method, source_file_name, data_type⟩)

/-- DatabaseManager.insert_processed_data_to_db (database_manager.py lines
137-172): append the combined central/std rows to the data_type table, tagged
with window, method and source file name. -/
def insert_processed_data_to_db (st : DBState) (df : Table) (df_std : RTable)
    (data_type time_window agg_method source_file_name : String) : DBState :=
  ⟨st.processed ++ mkAggRows df df_std data_type time_window agg_method source_file_name,
    st.file_records⟩

/-- DatabaseManager.query_processed_data_from_db (database_manager.py lines
174-194): the rows of the data_type table with DATETIME BETWEEN start AND end
(inclusive) and the given window and method, ordered by DATETIME ascending
(SQL leaves the relative order of equal keys unspecified; the model uses a
stable sort). -/
def query_processed_data_from_db (st : DBState) (data_type : String) (startT endT : ℤ)
    (time_window agg_method : String) : List AggRow :=
  (st.processed.filter (fun r =>
      decide (r.data_type = data_type ∧ startT ≤ r.datetime ∧ r.datetime ≤ endT ∧
        r.time_window = time_window ∧ r.agg_method = agg_method))).insertionSort
    (fun a b => a.datetime ≤ b.datetime)

/-- A Python runtime error surfaced by a modelled call. -/
inductive PyError where
  | attributeError (name : String)
deriving DecidableEq

/-- Number of required parameters of DatabaseManager.insert_processed_data_to_db
(database_manager.py line 137: df, df_std, data_type, time_window, agg_method,
source_file_name — none has a default). -/
def insertProcessedDataParamCount : ℕ := 6

/-- Number of arguments DataLoader.sync_database passes to
insert_processed_data_to_db (loader.py line 210: df_avg, df_std, data_type,
time_window, agg_method). -/
def syncInsertCallArgCount : ℕ := 5

/-- Number of required parameters of DatabaseManager.update_file_record
(database_manager.py line 122: file_name, original_path, file_hash, data_type,
record_count — none has a default). -/
def updateFileRecordParamCount : ℕ := 5

/-- Number of arguments DataLoader.sync_database passes to update_file_record
(loader.py line 215: file_path, file_hash, data_type, record count). -/
def syncUpdateCallArgCount : ℕ := 4

/-- Files DataLoader.sync_database marks for reprocessing (loader.py lines
168-189): a file is selected when it has no stored record, or its hash differs
from the stored hash, or its modification time is strictly later than the
stored one. Each selected file is paired with its freshly computed hash. -/
def sync_files_to_process (fs : List SrcFile) (st : DBState) : List (String × String) :=
  fs.filterMap (fun f =>
    match get_existing_file_records st f.path with
    | some pr =>
      if f.file_hash ≠ pr.1 ∨ pr.2 < f.mtime then some (f.path, f.file_hash) else none
    | none => some (f.path, f.file_hash))

/-- DataLoader.sync_database (loader.py lines 157-220) for a loader built with
use_db=True: it enumerates the files, computes each hash, and builds the
files-to-process list; it then unconditionally invokes
self.db_manager.delete_old_processed_data_by_time_window — an attribute
DatabaseManager never defines — so Python raises AttributeError at that line,
before any delete, insert or file-record update, and the database state is
returned untouched. The result pairs the (unchanged) state with the raised
error. -/
def sync_database (data_type : String) (fs : List SrcFile) (time_window agg_method : String)
    (st : DBState) : DBState × Option PyError :=
  let _files_to_process := sync_files_to_process fs st
  (st, some (PyError.attributeError ("delete_old_processed_data_by_time_window")))

/-- DataLoader._process_file_data_with_std (loader.py lines 222-261): resample
one parsed file to the given window, returning the central and dispersion
tables; empty input or no numeric columns yields two empty frames. In the
model every Table column is numeric and the DATETIME axis is the designated
timestamp, so select_dtypes keeps exactly the table's columns. -/
noncomputable def process_file_data_with_std (df : Table) (time_window agg_method : String) :
    Table × RTable :=
  if df.rows = [] then (emptyTable, emptyRTable)
  else if df.cols = [] then (emptyTable, emptyRTable)
  else (aggCentral (windowSeconds time_window) agg_method df,
    aggStd (windowSeconds time_window) df)

/-- Prefix test on character lists (Python str.startswith). -/
def listStartsWith : List Char → List Char → Bool
  | [], _ => true
  | _ :: _, [] => false
  | p :: ps, c :: cs => p = c ∧ listStartsWith ps cs

/-- Structural suffix test (Python str.endswith): s ends with the given
suffix when the reversed suffix is a prefix of the reversed string. -/
def strHasSuffix (s suffix : String) : Bool :=
  listStartsWith suffix.toList.reverse s.toList.reverse

/-- DataLoader._resample_data_with_std (loader.py lines 322-361): like
process_file_data_with_std, but run on a frame read back from the database, so
it first drops the DATETIME_DISPLAY column and every column whose name ends in
_std, then aggregates the remaining numeric columns. -/
noncomputable def resample_data_with_std (df : Table) (time_window agg_method : String) :
    Table × RTable :=
  if df.rows = [] then (emptyTable, emptyRTable)
  else
    let keep := df.cols.filter (fun c =>
      decide (¬ strHasSuffix c ("_std") = true ∧ c ≠ ("DATETIME_DISPLAY")))
    let dfk : Table := ⟨keep, df.rows.map (fun r =>
      (r.1, keep.map (fun c => tableCell df.cols r.2 c)))⟩
    if keep = [] then (emptyTable, emptyRTable)
    else (aggCentral (windowSeconds time_window) agg_method dfk,
      aggStd (windowSeconds time_window) dfk)

/-- DataLoader.load_processed_data (loader.py lines 263-320). The user's local
range is converted to UTC by subtracting the fixed zone offset; for the 1min
window the stored rows are returned directly, otherwise the stored 1min rows
are re-aggregated to the requested window by resample_data_with_std. The
result is split into the central table and a dispersion table whose columns
carry the base channel names (each _std column is renamed back by stripping
the suffix); both are keyed by the display timestamp (UTC shifted back into
the user zone). Bookkeeping columns (id, window, method, file name,
created_at) are not modelled; of these only id is numeric, and aggregating it
alongside the channels changes no channel column. -/
noncomputable def load_processed_data (st : DBState) (data_type : String)
    (startL endL : ℤ) (tz_off : ℤ) (time_window agg_method : String) : Table × RTable :=
  let startU := startL - tz_off
  let endU := endL - tz_off
  if time_window = ("1min") then
    let rows := query_processed_data_from_db st data_type startU endU ("1min") agg_method
    (⟨channelNames data_type, rows.map (fun r => (r.datetime + tz_off, r.vals))⟩,
      ⟨channelNames data_type, rows.map (fun r => (r.datetime + tz_off, r.stds))⟩)
  else
    let rows1 := query_processed_data_from_db st data_type startU endU ("1min") agg_method
    if rows1.isEmpty then (emptyTable, emptyRTable)
    else
      let df1 : Table := ⟨channelNames data_type, rows1.map (fun r => (r.datetime, r.vals))⟩
      let pr := resample_data_with_std df1 time_window agg_method
      (⟨pr.1.cols, pr.1.rows.map (fun r => (r.1 + tz_off, r.2))⟩,
        ⟨pr.2.cols, pr.2.rows.map (fun r => (r.1 + tz_off, r.2))⟩)

/-- Multiply every value of the named column by a factor (the pandas
`df[col] = df[col] * 1e4` assignment; NaN stays NaN). -/
def scaleCol (df : Table) (name : String) (factor : ℚ) : Table :=
  ⟨df.cols,
    match List.findIdx? (fun c => c = name) df.cols with
    | some j => df.rows.map (fun r =>
        (r.1, (List.range df.cols.length).map (fun i =>
          if i = j then (r.2.getD i none).map (fun q => q * factor) else r.2.getD i none)))
    | none => df.rows⟩

/-- Real-valued variant of scaleCol for dispersion tables. -/
noncomputable def scaleColR (df : RTable) (name : String) (factor : ℝ) : RTable :=
  ⟨df.cols,
    match List.findIdx? (fun c => c = name) df.cols with
    | some j => df.rows.map (fun r =>
        (r.1, (List.range df.cols.length).map (fun i =>
          if i = j then (r.2.getD i none).map (fun x => x * factor) else r.2.getD i none)))
    | none => df.rows⟩

/-- load_and_process_data (src/app.py lines 15-49): read the processed tables
from the cache, return two empty frames when nothing was found; for the
picarro source multiply the central H2O column by 1e4 (percent to ppm), and
multiply the dispersion H2O column by 1e4 only when the dispersion table has a
column literally named H2O_std; finally, when zero filtering is requested,
apply filter_zero_values to the central table. -/
noncomputable def load_and_process_data (st : DBState) (data_source : String)
    (startL endL tz_off : ℤ) (time_window agg_method : String) (fz : Bool) : Table × RTable :=
  let pr := load_processed_data st data_source startL endL tz_off time_window agg_method
  if pr.1.rows = [] then (emptyTable, emptyRTable)
  else
    let central :=
      if data_source = ("picarro") ∧ ("H2O") ∈ pr.1.cols then scaleCol pr.1 ("H2O") 10000
      else pr.1
    let stdT :=
      if data_source = ("picarro") ∧ ("H2O") ∈ pr.1.cols ∧ ("H2O_std") ∈ pr.2.cols then
        scaleColR pr.2 ("H2O") 10000
      else pr.2
    let central2 := if fz then filter_zero_values central data_source else central
    (central2, stdT)

/-- Whitespace test for Python str.split / str.strip (space, tab, CR, LF). -/
def isWs (c : Char) : Bool :=
  c = ' ' ∨ c = '\t' ∨ c = '\r' ∨ c = '\n'

/-- Python str.strip on a line of characters. -/
def stripLine (l : List Char) : List Char :=
  ((l.dropWhile isWs).reverse.dropWhile isWs).reverse

/-- Helper for whitespace splitting: accumulates the current token reversed. -/
def splitWsAux : List Char → List Char → List (List Char)
  | [], acc => if acc.isEmpty then [] else [acc.reverse]
  | c :: cs, acc =>
    if isWs c then
      if acc.isEmpty then splitWsAux cs [] else acc.reverse :: splitWsAux cs []
    else splitWsAux cs (c :: acc)

/-- Python str.split() with no argument: split on whitespace runs, no empty
tokens. -/
def splitWs (l : List Char) : List (List Char) :=
  splitWsAux l []

/-- The header-marker scan of the picarro parser: the first line whose stripped
form starts with DATE becomes the header, everything after it is data. -/
def findHeader : List (List Char) → Option (List Char × List (List Char))
  | [] => none
  | l :: ls =>
    if listStartsWith (("DATE").toList) (stripLine l) then some (stripLine l, ls)
    else findHeader ls

/-- DataLoader._load_picarro_file (loader.py lines 35-86), modelled on the raw
lines of the file; an unreadable file (the open call raising) is the none
input, and the surrounding except-clause maps every failure to None. Lines
before the DATE header are discarded; a data line is kept only when it has at
least as many whitespace tokens as the header (extra tokens are truncated); no
header, or a header with no surviving data line, yields None. The later
numeric and datetime coercions use errors=coerce and never fail, so the result
is modelled at the token stage: header names paired with token rows. -/
def load_picarro_file (file : Option (List (List Char))) :
    Option (List (List Char) × List (List (List Char))) :=
  match file with
  | none => none
  | some lines =>
    match findHeader lines with
    | none => none
    | some hd =>
      let headers := splitWs hd.1
      let data_lines := hd.2.filterMap (fun l =>
        let t := stripLine l
        if t.isEmpty then none
        else
          let parts := splitWs t
          if headers.length ≤ parts.length then some (parts.take headers.length) else none)
      if data_lines.isEmpty then none else some (headers, data_lines)

/-- Split a CSV line on commas (pandas read_csv field splitting; the pico logs
contain no quoted fields). -/
def splitComma : List Char → List Char → List (List Char)
  | [], acc => [acc.reverse]
  | c :: cs, acc =>
    if c = ',' then acc.reverse :: splitComma cs [] else splitComma cs (c :: acc)

/-- The static instrument-name → canonical-name column mapping of the pico
parser (loader.py lines 92-106). -/
def picoRename (c : List Char) : List Char :=
  if c = ("Time Stamp").toList then ("DATETIME").toList
  else if c = ("CH4 (ppm)").toList then ("CH4").toList
  else if c = ("C2H6 (ppb)").toList then ("C2H6").toList
  else if c = ("H2O (ppm)").toList then ("H2O").toList
  else if c = ("Tgas(degC)").toList then ("Tgas").toList
  else c

/-- DataLoader._load_pico_file (loader.py lines 88-123), modelled on the raw
lines: none is an unreadable file (exception caught, None), a fully empty file
makes read_csv raise EmptyDataError (caught, None), and a file with a header
line yields the renamed header with one token row per remaining line — in
particular a header-only file yields an empty (but not None) table. Numeric
and datetime coercions use errors=coerce and never fail. -/
def load_pico_file (file : Option (List (List Char))) :
    Option (List (List Char) × List (List (List Char))) :=
  match file with
  | none => none
  | some [] => none
  | some (hdr :: rest) =>
    some ((splitComma hdr []).map picoRename, rest.map (fun l => splitComma l []))

/-- Dispersion the specification asserts for a cache query at a window coarser
than the canonical 1-minute granularity, stated from the spec's words for
comparison with the code: the sample standard deviation over the raw
instrument samples falling in the bucket. -/
noncomputable def specRawBucketStd (raw : Table) (w b : ℤ) (j : ℕ) : RCell :=
  stdCell (bucketColCells w raw.rows b j)

/-- An empty database. -/
def dbEmpty : DBState :=
  ⟨[], []⟩

/-- Comparison of processed-data rows by bucket timestamp, the ORDER BY key. -/
instance : IsTotal AggRow (fun a b => a.datetime ≤ b.datetime) :=
  ⟨fun a b => Int.le_total a.datetime b.datetime⟩

/-- Transitivity of the bucket-timestamp comparison. -/
instance : IsTrans AggRow (fun a b => a.datetime ≤ b.datetime) :=
  ⟨fun _ _ _ h h2 => le_trans h h2⟩

/-- Raw single-channel file of the C7 scenario: samples at 00:00:10, 00:00:40
and 00:01:20 UTC with values 10, 20, 30. -/
def scenarioRaw : Table :=
  ⟨[("CH4")], [(10, [some 10]), (40, [some 20]), (80, [some 30])]⟩

/-- A source file whose stored hash differs from its current hash (the stored
record below carries hash h1 and modification time 5). -/
def changedFile : SrcFile :=
  ⟨("f.dat"), ("h2"), 10⟩

/-- A pre-existing aggregate row attributed to changedFile. -/
def oldRowForChangedFile : AggRow :=
  ⟨0, [some 1, none, none, none], [none, none, none, none], ("1min"), ("mean"), ("f.dat"), ("pico")⟩

/-- Database state holding changedFile's stale aggregates and its stale file
record (hash h1, modification time 5). -/
def staleState : DBState :=
  ⟨[oldRowForChangedFile], [⟨("f.dat"), ("f.dat"), ("h1"), 5, ("pico"), 1⟩]⟩

/-- Two stored picarro aggregate rows sharing one bucket timestamp under the
same (window, method) key, coming from two different source files. -/
def dupState : DBState :=
  ⟨[⟨0, [], [], ("1min"), ("mean"), ("a.dat"), ("picarro")⟩,
    ⟨0, [], [], ("1min"), ("mean"), ("b.dat"), ("picarro")⟩], []⟩

/-- Two stored picarro aggregate rows with distinct bucket timestamps. -/
def distinctState : DBState :=
  ⟨[⟨60, [], [], ("1min"), ("mean"), ("a.dat"), ("picarro")⟩,
    ⟨0, [], [], ("1min"), ("mean"), ("a.dat"), ("picarro")⟩], []⟩

/-- A stored picarro 1-minute row with H2O central value 2 (percent) and H2O
standard deviation 3. -/
def h2oState : DBState :=
  ⟨[⟨0, [none, none, some 2, none, none], [none, none, some ((3 : ℚ) : ℝ), none, none],
    ("1min"), ("mean"), ("p.dat"), ("picarro")⟩], []⟩

/-- A stored picarro 1-minute row whose H2O central value is exactly 0, with
nonzero CO2_dry and CH4_dry. -/
def zeroH2OState : DBState :=
  ⟨[⟨0, [some 1, some 1, some 0, none, none], [none, none, none, none, none],
    ("1min"), ("mean"), ("p.dat"), ("picarro")⟩], []⟩

/-- Raw single-channel pico file for the C5 scenario: two one-minute buckets,
each holding the samples {0, 1, 2} (bucket mean 1, bucket sample variance 1). -/
def rawForCache : Table :=
  ⟨[("CH4")],
    [(0, [some 0]), (20, [some 1]), (40, [some 2]),
     (60, [some 2]), (80, [some 0]), (100, [some 1])]⟩

/-- The cache state produced by 1-minute aggregation of rawForCache: per
bucket, CH4 central value 1 and CH4 standard deviation √1 = 1; the other pico
channels are NULL (absent from the single-channel file). -/
def cachedState : DBState :=
  ⟨[⟨0, [some 1, none, none, none], [some ((1 : ℚ) : ℝ), none, none, none],
      ("1min"), ("mean"), ("Pico_f.txt"), ("pico")⟩,
    ⟨60, [some 1, none, none, none], [some ((1 : ℚ) : ℝ), none, none, none],
      ("1min"), ("mean"), ("Pico_f.txt"), ("pico")⟩], []⟩

/-- A picarro log consisting of only the header line: valid but empty. -/
def picarroHeaderOnly : List (List Char) :=
  [("DATE TIME CO2_dry CH4_dry H2O CO2 CH4").toList]

/-- A malformed picarro log: no DATE header marker anywhere. -/
def picarroMalformed : List (List Char) :=
  [("garbage line without a header").toList]

/-- The pico log header line, in the instrument's native column names. -/
def picoHeaderLine : List Char :=
  ("Time Stamp,CH4 (ppm),C2H6 (ppb),H2O (ppm),Tgas(degC)").toList

/-- The canonical column names the pico parser maps the native header to. -/
def picoCanonicalHeader : List (List Char) :=
  [("DATETIME").toList, ("CH4").toList, ("C2H6").toList, ("H2O").toList, ("Tgas").toList]

/-- C3: for every DataLoader with use_db=True, every sync_database call that
completes file enumeration and hashing raises AttributeError at the
pre-insertion delete step — delete_old_processed_data_by_time_window is not
defined by DatabaseManager — so the state is returned untouched: no aggregate
row is inserted and no file record is updated; moreover the subsequent calls
would themselves pass fewer arguments than insert_processed_data_to_db and
update_file_record require. -/
theorem sync_database_always_raises (data_type : String) (fs : List SrcFile)
    (time_window agg_method : String) (st : DBState) :
    sync_database data_type fs time_window agg_method st =
      (st, some (PyError.attributeError ("delete_old_processed_data_by_time_window"))) ∧
    (sync_database data_type fs time_window agg_method st).1.processed = st.processed ∧
    (sync_database data_type fs time_window agg_method st).1.file_records = st.file_records ∧
    syncInsertCallArgCount < insertProcessedDataParamCount ∧
    syncUpdateCallArgCount < updateFileRecordParamCount :=
  ⟨rfl, rfl, rfl, by decide, by decide⟩

/-- C1 (failing input): a sync run over an empty file set on an empty database
with window 1min and method mean already raises AttributeError instead of
performing the claimed per-(file, window, method) delete-then-reinsert cycle;
a second run in succession does exactly the same. The rows are only unchanged
because the operation crashes before touching them. -/
theorem sync_idempotence_broken_by_crash :
    sync_database ("picarro") [] ("1min") ("mean") dbEmpty =
      (dbEmpty, some (PyError.attributeError ("delete_old_processed_data_by_time_window"))) ∧
    sync_database ("picarro") []
        ("1min") ("mean") (sync_database ("picarro") [] ("1min") ("mean") dbEmpty).1 =
      (dbEmpty, some (PyError.attributeError ("delete_old_processed_data_by_time_window"))) :=
  ⟨rfl, rfl⟩

/-- C2 (failing input): changedFile's hash differs from its stored record, so
the sync pass does select it for reprocessing, but the run raises
AttributeError before deleting or inserting anything: afterwards the stale
aggregate row is still present and no replacement row exists — the claimed
full replacement never happens. -/
theorem changed_file_rows_not_replaced :
    sync_files_to_process [changedFile] staleState = [(("f.dat"), ("h2"))] ∧
    sync_database ("pico") [changedFile] ("1min") ("mean") staleState =
      (staleState, some (PyError.attributeError ("delete_old_processed_data_by_time_window"))) ∧
    oldRowForChangedFile ∈ (sync_database ("pico") [changedFile] ("1min") ("mean") staleState).1.processed :=
  ⟨rfl, rfl, List.mem_singleton.mpr rfl⟩

/-- C8: a null window is a first-class no-aggregation mode — for every input
table the resampler returns the input unchanged as the central table (hence
row-count-identical to the filtered input it receives) together with an empty
dispersion table. -/
theorem null_window_passthrough (df : Table) (agg_method : String) :
    resample_data_with_uncertainty df none agg_method = (df, emptyRTable) ∧
    (resample_data_with_uncertainty df none agg_method).1.rows.length = df.rows.length := by
  have h : resample_data_with_uncertainty df none agg_method = (df, emptyRTable) := by
    unfold resample_data_with_uncertainty
    by_cases hr : df.rows = [] <;> simp [hr]
  exact ⟨h, by rw [h]⟩

/-- C7: resampling the 3-sample scenario (00:00:10 → 10, 00:00:40 → 20,
00:01:20 → 30) with a 1-minute window and mean aggregation yields exactly two
buckets — 00:00:00 with mean 15 and sample standard deviation √50 ≈ 7.07
(strictly between 7.07 and 7.08), and 00:01:00 with mean 30 and a missing
dispersion — and in general every bucket with fewer than 2 non-missing samples
yields a missing dispersion value. -/
theorem resample_concrete_scenario :
    ((resample_data_with_uncertainty scenarioRaw (some ("1min")) ("mean")).1 =
        ⟨[("CH4")], [(0, [some 15]), (60, [some 30])]⟩ ∧
      (resample_data_with_uncertainty scenarioRaw (some ("1min")) ("mean")).2.cols = [("CH4")] ∧
      (resample_data_with_uncertainty scenarioRaw (some ("1min")) ("mean")).2.rows =
        [(0, [some (Real.sqrt 50)]), (60, [none])] ∧
      (7.07 : ℝ) < Real.sqrt 50 ∧ Real.sqrt 50 < 7.08) ∧
    ∀ xs : List Cell, (dropna xs).length < 2 → stdCell xs = none := by
  have hb : bucketList 60 scenarioRaw.rows = [0, 1] := by decide
  have hc0 : bucketColCells 60 scenarioRaw.rows 0 0 = [some 10, some 20] := by decide
  have hc1 : bucketColCells 60 scenarioRaw.rows 1 0 = [some 30] := by decide
  have hcent : aggCentral 60 ("mean") scenarioRaw =
      ⟨[("CH4")], [(0, [some 15]), (60, [some 30])]⟩ := by
    unfold aggCentral
    rw [hb]
    simp +decide [show List.range 1 = [0] from rfl, hc0, hc1, centralCell, dropna,
      centralOf, qmean, qsum, show scenarioRaw.cols = [("CH4")] from rfl]
    norm_num
  have hv0 : varCell (bucketColCells 60 scenarioRaw.rows 0 0) = some 50 := by
    rw [hc0]
    simp [varCell, dropna, sampleVar, qmean, qsum]
    norm_num
  have hv1 : varCell (bucketColCells 60 scenarioRaw.rows 1 0) = none := by
    rw [hc1]
    simp [varCell, dropna]
  have hvar : aggVar 60 scenarioRaw = ⟨[("CH4")], [(0, [some 50]), (60, [none])]⟩ := by
    unfold aggVar
    rw [hb]
    simp [show List.range 1 = [0] from rfl, hv0, hv1,
      show scenarioRaw.cols = [("CH4")] from rfl]
  have hstd : (aggStd 60 scenarioRaw).cols = [("CH4")] ∧
      (aggStd 60 scenarioRaw).rows = [(0, [some (Real.sqrt 50)]), (60, [none])] := by
    unfold aggStd
    rw [hvar]
    constructor
    · rfl
    · norm_num
  have hres : resample_data_with_uncertainty scenarioRaw (some ("1min")) ("mean")
      = (aggCentral 60 ("mean") scenarioRaw, aggStd 60 scenarioRaw) := by
    unfold resample_data_with_uncertainty
    rw [if_neg (by decide)]
    simp +decide [show windowSeconds ("1min") = 60 from by decide]
  refine ⟨⟨?_, ?_, ?_, ?_, ?_⟩, ?_⟩
  · rw [hres, hcent]
  · rw [hres]
    exact hstd.1
  · rw [hres]
    exact hstd.2
  · exact (Real.lt_sqrt (by norm_num)).mpr (by norm_num)
  · exact (Real.sqrt_lt' (by norm_num)).mpr (by norm_num)
  · intro xs h
    unfold stdCell varCell
    rw [if_neg (not_le.mpr h)]
    rfl

/-- Closed instance of resample_concrete_scenario's universally quantified
part: the single-sample bucket list indeed yields a missing dispersion. -/
theorem resample_concrete_scenario_witness : stdCell [some 30] = none :=
  resample_concrete_scenario.2 [some 30] (by decide)

/-- C10 (counterexample): a stored state can hold two aggregate rows with the
same bucket timestamp under one (data source, window, method) key — nothing in
the schema or the insert path forbids it — and the query then returns both, so
the returned bucket timestamps are neither unique nor strictly increasing. -/
theorem query_duplicate_timestamps :
    ¬ (((query_processed_data_from_db dupState ("picarro") 0 10 ("1min") ("mean")).map
          (fun r => r.datetime)).Nodup ∧
        ((query_processed_data_from_db dupState ("picarro") 0 10 ("1min") ("mean")).map
          (fun r => r.datetime)).Pairwise (· < ·)) := by
  decide

/-- C10 (amended): the bucket timestamps returned by the cache query are
always sorted non-decreasingly (ORDER BY DATETIME), and whenever they are
pairwise distinct — in particular whenever the stored rows for the queried key
have no duplicate bucket timestamp — they are strictly increasing, hence
unique. -/
theorem query_timestamps_sorted (st : DBState) (data_type : String) (startT endT : ℤ)
    (time_window agg_method : String) :
    List.Sorted (· ≤ ·)
      ((query_processed_data_from_db st data_type startT endT time_window agg_method).map
        (fun r => r.datetime)) ∧
    (((query_processed_data_from_db st data_type startT endT time_window agg_method).map
        (fun r => r.datetime)).Nodup →
      ((query_processed_data_from_db st data_type startT endT time_window agg_method).map
        (fun r => r.datetime)).Pairwise (· < ·)) := by
  have hs : List.Sorted (fun a b : AggRow => a.datetime ≤ b.datetime)
      (query_processed_data_from_db st data_type startT endT time_window agg_method) :=
    List.sorted_insertionSort _ _
  have hm : List.Sorted (· ≤ ·)
      ((query_processed_data_from_db st data_type startT endT time_window agg_method).map
        (fun r => r.datetime)) :=
    List.Pairwise.map _ (fun _ _ h => h) hs
  exact ⟨hm, fun hnd => List.Sorted.lt_of_le hm hnd⟩

/-- Closed instance of query_timestamps_sorted at a state with distinct bucket
timestamps: the returned timestamps are strictly increasing. -/
theorem query_timestamps_sorted_witness :
    ((query_processed_data_from_db distinctState ("picarro") 0 100 ("1min") ("mean")).map
      (fun r => r.datetime)).Pairwise (· < ·) :=
  (query_timestamps_sorted distinctState ("picarro") 0 100 ("1min") ("mean")).2 (by decide)

/-- Helper: when no line of the file starts (after stripping) with the DATE
marker, the header scan of the picarro parser finds nothing. -/
theorem findHeader_eq_none (lines : List (List Char))
    (h : ∀ l ∈ lines, listStartsWith (("DATE").toList) (stripLine l) = false) :
    findHeader lines = none := by
  induction lines with
  | nil => rfl
  | cons l ls ih =>
    simp only [findHeader, h l (List.mem_cons_self l ls), Bool.false_eq_true, if_false]
    exact ih fun x hx => h x (List.mem_cons_of_mem l hx)

/-- C9 (counterexample): the picarro parser returns None both for an
empty-but-valid file (a lone header line, which parses but yields no data
rows) and for a malformed file with no header marker, and for an unreadable
file — the parse-failure result is not distinguishable from the
empty-but-valid result. -/
theorem picarro_failure_indistinguishable :
    load_picarro_file (some picarroHeaderOnly) = none ∧
    load_picarro_file (some picarroMalformed) = none ∧
    load_picarro_file none = none := by
  decide

/-- C9 (amended): neither parser raises past its boundary — every outcome of
the modelled functions is an Option value, with every failure collapsed to
None. For the picarro parser a file without a DATE header yields None, an
unreadable file yields None, and an empty-but-valid header-only file also
yields None, so failure is not distinguishable from empty-but-valid there; for
the pico parser an unreadable or fully empty file yields None while a
header-only file yields an empty table, which is distinguishable from None. -/
theorem parser_failures_collapse_to_none :
    ((∀ lines : List (List Char),
        (∀ l ∈ lines, listStartsWith (("DATE").toList) (stripLine l) = false) →
        load_picarro_file (some lines) = none) ∧
      load_picarro_file none = none ∧
      load_picarro_file (some picarroHeaderOnly) = none) ∧
    (load_pico_file none = none ∧
      load_pico_file (some []) = none ∧
      load_pico_file (some [picoHeaderLine]) = some (picoCanonicalHeader, []) ∧
      some (picoCanonicalHeader, ([] : List (List (List Char)))) ≠
        (none : Option (List (List Char) × List (List (List Char))))) := by
  refine ⟨⟨?_, rfl, by decide⟩, rfl, rfl, by decide, by decide⟩
  intro lines h
  simp [load_picarro_file, findHeader_eq_none lines h]

/-- Closed instance of the universally quantified part of
parser_failures_collapse_to_none: the header-less file parses to None. -/
theorem parser_failures_collapse_to_none_witness :
    load_picarro_file (some picarroMalformed) = none :=
  parser_failures_collapse_to_none.1.1 picarroMalformed (by decide)

/-- C4 (failing input): for a stored picarro 1-minute row with H2O central
value 2 and H2O standard deviation 3, the load path multiplies the central H2O
by 1e4 (2 → 20000) but leaves the dispersion H2O untouched (3, not 30000): the
guard protecting the std conversion looks for a column named H2O_std, while
the returned dispersion table carries the base channel names, so the
conversion of the dispersion table is dead code. -/
theorem h2o_std_conversion_skipped :
    (load_and_process_data h2oState ("picarro") 0 100 0 ("1min") ("mean") false).1 =
      ⟨channelNames ("picarro"), [(0, [none, none, some 20000, none, none])]⟩ ∧
    ("H2O_std") ∉ (load_processed_data h2oState ("picarro") 0 100 0 ("1min") ("mean")).2.cols ∧
    (load_and_process_data h2oState ("picarro") 0 100 0 ("1min") ("mean") false).2.rows =
      [(0, [none, none, some ((3 : ℚ) : ℝ), none, none])] ∧
    ((3 : ℚ) : ℝ) ≠ ((3 : ℚ) : ℝ) * 10000 := by
  refine ⟨?_, ?_, ?_, by norm_num⟩
  · unfold load_and_process_data load_processed_data
    simp +decide [query_processed_data_from_db, h2oState, scaleCol, channelNames, List.range_succ]
    norm_num
  · unfold load_processed_data
    simp +decide [channelNames]
  · unfold load_and_process_data load_processed_data
    simp +decide [query_processed_data_from_db, h2oState, scaleCol, channelNames, List.range_succ]

/-- Helper: shifting the time axis by zero changes nothing. -/
theorem shiftTime_zero (df : Table) : shiftTime 0 df = df := by
  cases df with
  | mk c r => simp [shiftTime]

/-- Helper: in the orchestrator's cache-read path, running with zero filtering
on differs from running with it off exactly by one application of
filter_zero_values to the final (aggregated, unit-converted) central table,
and the dispersion table is identical in both runs. -/
theorem load_filter_placement (st : DBState) (dt : String) (s e off : ℤ) (tw am : String) :
    (load_and_process_data st dt s e off tw am true).1 =
      filter_zero_values ((load_and_process_data st dt s e off tw am false).1) dt ∧
    (load_and_process_data st dt s e off tw am true).2 =
      (load_and_process_data st dt s e off tw am false).2 := by
  by_cases h : (load_processed_data st dt s e off tw am).1.rows = []
  · constructor <;> simp [load_and_process_data, h, filter_zero_values, emptyTable]
  · constructor <;> simp [load_and_process_data, h]

/-- C6 (counterexample): a stored picarro aggregate row whose H2O value is 0
is present in the returned central table when zero filtering is off, but
removed from it when zero filtering is on — the filtering step runs on rows
read back from the precomputed-aggregate cache, i.e. on already-aggregated
rows, contradicting the claim that filtering only ever runs on raw rows before
aggregation. -/
theorem zero_filter_runs_on_aggregates :
    (load_and_process_data zeroH2OState ("picarro") 0 100 0 ("1min") ("mean") false).1 =
      ⟨channelNames ("picarro"), [(0, [some 1, some 1, some 0, none, none])]⟩ ∧
    (load_and_process_data zeroH2OState ("picarro") 0 100 0 ("1min") ("mean") true).1.rows = [] ∧
    (load_and_process_data zeroH2OState ("picarro") 0 100 0 ("1min") ("mean") true).1 ≠
      (load_and_process_data zeroH2OState ("picarro") 0 100 0 ("1min") ("mean") false).1 := by
  have h2 : (load_and_process_data zeroH2OState ("picarro") 0 100 0 ("1min") ("mean") false).1 =
      ⟨channelNames ("picarro"), [(0, [some 1, some 1, some 0, none, none])]⟩ := by
    unfold load_and_process_data load_processed_data
    simp +decide [query_processed_data_from_db, zeroH2OState, scaleCol, channelNames, List.range_succ]
  have h1 : (load_and_process_data zeroH2OState ("picarro") 0 100 0 ("1min") ("mean") true).1.rows = [] := by
    rw [(load_filter_placement zeroH2OState ("picarro") 0 100 0 ("1min") ("mean")).1, h2]
    simp +decide [filter_zero_values, filterZeroCols, tableCell, channelNames]
  refine ⟨h2, h1, fun heq => ?_⟩
  have h3 := congrArg Table.rows heq
  rw [h1, h2] at h3
  simp at h3

/-- C6 (amended): in the cache-read load path, requested zero filtering is
applied to the already-aggregated central table after it is read back and
unit-converted (and never to the dispersion table, which is identical with or
without filtering); in the raw-file path of the resampler, requested zero
filtering is applied to the raw (display-shifted) rows before any aggregation,
so running it with the flag equals pre-filtering the input and running with
the flag off. -/
theorem zero_filter_placement (st : DBState) (dt : String) (s e off : ℤ) (tw am : String)
    (df : Table) (tw2 : Option String) (am2 : String) (off2 : ℤ) (dt2 : String) :
    (load_and_process_data st dt s e off tw am true).1 =
      filter_zero_values ((load_and_process_data st dt s e off tw am false).1) dt ∧
    (load_and_process_data st dt s e off tw am true).2 =
      (load_and_process_data st dt s e off tw am false).2 ∧
    process_data df tw2 am2 off2 true dt2 =
      process_data (filter_zero_values (shiftTime off2 df) dt2) tw2 am2 0 false dt2 := by
  refine ⟨(load_filter_placement st dt s e off tw am).1,
    (load_filter_placement st dt s e off tw am).2, ?_⟩
  unfold process_data
  rw [shiftTime_zero]
  rfl

/-- Helper: the dispersion table of a resample is, bucket by bucket, the
stdCell of the cells falling in the bucket (the variance table mapped through
the square root, fused into one map). -/
theorem aggStd_eq (w : ℤ) (tb : Table) :
    aggStd w tb = ⟨tb.cols, (bucketList w tb.rows).map (fun b =>
      (w * b, (List.range tb.cols.length).map (fun j => stdCell (bucketColCells w tb.rows b j))))⟩ := by
  unfold aggStd aggVar stdCell
  simp [List.map_map, Function.comp]

/-- Helper: the emitted bucket range only depends on the timestamps, not on
the cell payloads. -/
theorem bucketList_map_snd (w : ℤ) (l : List (ℤ × List Cell)) (g : ℤ × List Cell → List Cell) :
    bucketList w (l.map (fun r => (r.1, g r))) = bucketList w l := by
  cases l with
  | nil => rfl
  | cons r rs =>
    unfold bucketList
    simp [List.map_map, Function.comp_def]

/-- Helper: bucket cells of a payload-transformed row list. -/
theorem bucketColCells_map (w : ℤ) (l : List (ℤ × List Cell)) (g : ℤ × List Cell → List Cell)
    (b : ℤ) (j : ℕ) :
    bucketColCells w (l.map (fun r => (r.1, g r))) b j =
      (l.filter (fun r => decide (bucketIdx w r.1 = b))).map (fun r => (g r).getD j none) := by
  unfold bucketColCells
  rw [List.filter_map]
  simp [Function.comp_def]

/-- Helper: no channel column name ends in _std or is the display column, so
the column filter of resample_data_with_std keeps every channel. -/
theorem channel_keep (dt : String) :
    (channelNames dt).filter (fun c =>
      decide (¬ strHasSuffix c ("_std") = true ∧ c ≠ ("DATETIME_DISPLAY"))) = channelNames dt := by
  by_cases h : dt = ("picarro") <;> simp +decide [channelNames, h]

/-- Helper: both data sources have at least one channel column. -/
theorem channel_nonempty (dt : String) : channelNames dt ≠ [] := by
  by_cases h : dt = ("picarro") <;> simp [channelNames, h]

/-- Helper: re-reading a row's cells through tableCell over the (duplicate-free)
channel columns reproduces the cells positionally. -/
theorem channel_cell (dt : String) (v : List Cell) (j : ℕ) (hj : j < (channelNames dt).length) :
    ((channelNames dt).map (fun c => tableCell (channelNames dt) v c)).getD j none = v.getD j none := by
  have hidx : List.findIdx? (fun c => c = (channelNames dt).getD j ("")) (channelNames dt) = some j := by
    by_cases h : dt = ("picarro")
    · rw [show channelNames dt = [("CO2_dry"), ("CH4_dry"), ("H2O"), ("CO2"), ("CH4")] from by
        simp [channelNames, h]]
      have hj5 : j < 5 := by
        have h2 := hj
        rw [show channelNames dt = [("CO2_dry"), ("CH4_dry"), ("H2O"), ("CO2"), ("CH4")] from by
          simp [channelNames, h]] at h2
        simpa using h2
      interval_cases j <;> decide
    · rw [show channelNames dt = [("CH4"), ("C2H6"), ("H2O"), ("Tgas")] from by
        simp [channelNames, h]]
      have hj4 : j < 4 := by
        have h2 := hj
        rw [show channelNames dt = [("CH4"), ("C2H6"), ("H2O"), ("Tgas")] from by
          simp [channelNames, h]] at h2
        simpa using h2
      interval_cases j <;> decide
  have hg : (channelNames dt).getD j ("") = (channelNames dt)[j] := by
    rw [List.getD_eq_getElem?_getD, List.getElem?_eq_getElem hj]
    rfl
  rw [List.getD_eq_getElem?_getD, List.getElem?_map, List.getElem?_eq_getElem hj]
  simp only [Option.map_some', Option.getD_some]
  unfold tableCell
  rw [← hg, hidx]

/-- Helper: on a nonempty frame whose columns are the channel columns,
resample_data_with_std returns as dispersion, for every emitted bucket and
channel, the stdCell over that channel's cells falling in the bucket. -/
theorem resample_channels (dt : String) (rows : List (ℤ × List Cell)) (tw am : String)
    (hrows : rows ≠ []) :
    (resample_data_with_std ⟨channelNames dt, rows⟩ tw am).2 =
      ⟨channelNames dt, (bucketList (windowSeconds tw) rows).map (fun b =>
        (windowSeconds tw * b, (List.range (channelNames dt).length).map (fun j =>
          stdCell ((rows.filter (fun r => decide (bucketIdx (windowSeconds tw) r.1 = b))).map
            (fun r => r.2.getD j none)))))⟩ := by
  unfold resample_data_with_std
  rw [if_neg hrows]
  simp only [channel_keep]
  rw [if_neg (channel_nonempty dt)]
  show aggStd (windowSeconds tw) _ = _
  rw [aggStd_eq, bucketList_map_snd]
  refine congrArg _ ?_
  apply List.map_congr_left
  intro b hb
  refine congrArg _ ?_
  apply List.map_congr_left
  intro j hj
  rw [bucketColCells_map]
  refine congrArg _ ?_
  apply List.map_congr_left
  intro r hr
  exact channel_cell dt r.2 j (List.mem_range.mp hj)

/-- C5 (counterexample): cache the 1-minute aggregates of a raw pico file
whose two one-minute buckets each hold the samples {0, 1, 2} (central value 1,
standard deviation 1 per bucket); querying at the coarser 5-minute window
returns dispersion √0 = 0 for the single coarse bucket — the sample standard
deviation over the two cached 1-minute central values [1, 1] — while the
sample standard deviation over the six raw samples in that bucket is
√(4/5) > 0. The returned dispersion is a statistic of the cached central
values, not of the raw samples, refuting the claim at this input. -/
theorem coarse_dispersion_not_raw_sample_std :
    (process_file_data_with_std rawForCache ("1min") ("mean")).1 =
      ⟨[("CH4")], [(0, [some 1]), (60, [some 1])]⟩ ∧
    (process_file_data_with_std rawForCache ("1min") ("mean")).2.rows =
      [(0, [some (1 : ℝ)]), (60, [some (1 : ℝ)])] ∧
    cachedState.processed.map (fun r => (r.datetime, r.vals.getD 0 none, r.stds.getD 0 none)) =
      [(0, some 1, some (1 : ℝ)), (60, some 1, some (1 : ℝ))] ∧
    (load_processed_data cachedState ("pico") 0 200 0 ("5min") ("mean")).2 =
      ⟨channelNames ("pico"), [(0, [some (0 : ℝ), none, none, none])]⟩ ∧
    specRawBucketStd rawForCache 300 0 0 = some (Real.sqrt (4 / 5)) ∧
    ((load_processed_data cachedState ("pico") 0 200 0 ("5min") ("mean")).2.rows.getD 0
        (0, [])).2.getD 0 none ≠ specRawBucketStd rawForCache 300 0 0 := by
  have hb : bucketList 60 rawForCache.rows = [0, 1] := by decide
  have hc0 : bucketColCells 60 rawForCache.rows 0 0 = [some 0, some 1, some 2] := by decide
  have hc1 : bucketColCells 60 rawForCache.rows 1 0 = [some 2, some 0, some 1] := by decide
  have hcent : aggCentral 60 ("mean") rawForCache = ⟨[("CH4")], [(0, [some 1]), (60, [some 1])]⟩ := by
    unfold aggCentral
    rw [hb]
    simp +decide [show List.range 1 = [0] from rfl, hc0, hc1, centralCell, dropna,
      centralOf, qmean, qsum, show rawForCache.cols = [("CH4")] from rfl]
    norm_num
  have hvar : aggVar 60 rawForCache = ⟨[("CH4")], [(0, [some 1]), (60, [some 1])]⟩ := by
    unfold aggVar
    rw [hb]
    simp +decide [show List.range 1 = [0] from rfl, hc0, hc1, varCell, dropna,
      sampleVar, qmean, qsum, show rawForCache.cols = [("CH4")] from rfl]
    norm_num
  have hstd : (aggStd 60 rawForCache).rows = [(0, [some (1 : ℝ)]), (60, [some (1 : ℝ)])] := by
    unfold aggStd
    rw [hvar]
    norm_num
  have hw : process_file_data_with_std rawForCache ("1min") ("mean") =
      (aggCentral 60 ("mean") rawForCache, aggStd 60 rawForCache) := by
    unfold process_file_data_with_std
    rw [if_neg (by decide), if_neg (by decide), show windowSeconds ("1min") = 60 from by decide]
  have hload : (load_processed_data cachedState ("pico") 0 200 0 ("5min") ("mean")).2 =
      ⟨channelNames ("pico"), [(0, [some (0 : ℝ), none, none, none])]⟩ := by
    unfold load_processed_data resample_data_with_std
    simp +decide [query_processed_data_from_db, cachedState, tableCell, channelNames,
      aggStd, aggVar, bucketList, bucketIdx, bucketColCells, varCell, dropna, sampleVar,
      qmean, qsum, List.range_succ]
  have hspec : specRawBucketStd rawForCache 300 0 0 = some (Real.sqrt (4 / 5)) := by
    have hc : bucketColCells 300 rawForCache.rows 0 0 =
        [some 0, some 1, some 2, some 2, some 0, some 1] := by decide
    unfold specRawBucketStd stdCell varCell
    rw [hc]
    simp +decide [dropna, sampleVar, qmean, qsum]
    norm_num
  refine ⟨by rw [hw, hcent], by rw [hw]; exact hstd, by norm_num [cachedState], hload, hspec, ?_⟩
  rw [hload, hspec]
  simp only [List.getD_cons_zero]
  intro h
  have h2 : (0 : ℝ) = Real.sqrt (4 / 5) := Option.some.inj h
  have h3 := Real.sqrt_pos.mpr (by norm_num : (0 : ℝ) < 4 / 5)
  rw [← h2] at h3
  exact lt_irrefl 0 h3

/-- C5 (amended): for every cache query at a window other than the canonical
1min with a nonempty 1-minute result set, the returned dispersion table holds,
for every emitted bucket and every channel, the sample standard deviation
(stdCell) over the cached 1-minute central values of that channel falling in
the bucket — independent of agg_method, and not a statistic of the raw
samples. -/
theorem coarse_query_dispersion (st : DBState) (dt : String) (sL eL off : ℤ) (tw am : String)
    (hne : tw ≠ ("1min"))
    (hq : (query_processed_data_from_db st dt (sL - off) (eL - off) ("1min") am).isEmpty = false) :
    (load_processed_data st dt sL eL off tw am).2 =
      ⟨channelNames dt,
        (bucketList (windowSeconds tw)
            ((query_processed_data_from_db st dt (sL - off) (eL - off) ("1min") am).map
              (fun r => (r.datetime, r.vals)))).map (fun b =>
          (windowSeconds tw * b + off,
            (List.range (channelNames dt).length).map (fun j =>
              stdCell (((query_processed_data_from_db st dt (sL - off) (eL - off) ("1min") am).filter
                  (fun r => decide (bucketIdx (windowSeconds tw) r.datetime = b))).map
                (fun r => r.vals.getD j none)))))⟩ := by
  have hqne : query_processed_data_from_db st dt (sL - off) (eL - off) ("1min") am ≠ [] := by
    intro h
    rw [h] at hq
    simp at hq
  have hmapne : (query_processed_data_from_db st dt (sL - off) (eL - off) ("1min") am).map
      (fun r => (r.datetime, r.vals)) ≠ [] := by
    simpa using hqne
  unfold load_processed_data
  rw [if_neg hne]
  simp only [hq, Bool.false_eq_true, if_false]
  rw [resample_channels dt _ tw am hmapne]
  refine congrArg _ ?_
  rw [List.map_map]
  apply List.map_congr_left
  intro b hb
  simp only [Function.comp_def]
  refine congrArg _ ?_
  apply List.map_congr_left
  intro j hj
  rw [List.filter_map, List.map_map]
  refine congrArg _ ?_
  refine congrArg _ ?_
  rfl

/-- Closed instance of coarse_query_dispersion at the concrete cached state:
the hypotheses hold and the 5-minute dispersion table is exactly the
per-bucket stdCell over the cached 1-minute central values. -/
theorem coarse_query_dispersion_witness :
    (("5min") : String) ≠ ("1min") ∧
    (query_processed_data_from_db cachedState ("pico") (0 - 0) (200 - 0) ("1min") ("mean")).isEmpty
      = false ∧
    (load_processed_data cachedState ("pico") 0 200 0 ("5min") ("mean")).2 =
      ⟨channelNames ("pico"),
        (bucketList (windowSeconds ("5min"))
            ((query_processed_data_from_db cachedState ("pico") (0 - 0) (200 - 0) ("1min") ("mean")).map
              (fun r => (r.datetime, r.vals)))).map (fun b =>
          (windowSeconds ("5min") * b + 0,
            (List.range (channelNames ("pico")).length).map (fun j =>
              stdCell (((query_processed_data_from_db cachedState ("pico") (0 - 0) (200 - 0)
                    ("1min") ("mean")).filter
                  (fun r => decide (bucketIdx (windowSeconds ("5min")) r.datetime = b))).map
                (fun r => r.vals.getD j none)))))⟩ :=
  ⟨by decide, by decide,
    coarse_query_dispersion cachedState ("pico") 0 200 0 ("5min") ("mean") (by decide) (by decide)⟩

end MethaneAnalyzer
